import Mathlib

/-!
Shallow embedding of the scoring and recommendation core of
`candidate_screener.py` (AI candidate screening pipeline).

The embedded functions are `calculate_skill_match_score`,
`calculate_experience_score`, `calculate_education_score`, the soft-skill
estimator inlined in `score_candidate`, `score_candidate` itself, and
`generate_recommendation`.  Python floats are modelled as rationals,
Python ints as naturals (all quantities in scope are non-negative),
Python lists as Lean lists, and the fallible list indexing
`candidate_education[0]` as an `Option` result (`none` models the
`IndexError` raised on an empty list).
-/

-- The Batteries rational primitives are irreducible by default; making them
-- semireducible lets `decide` evaluate concrete rational arithmetic.
attribute [local semireducible] Rat.add Rat.sub Rat.mul Rat.inv Rat.ofScientific

namespace Screener

/-- Lowercase conversion for a single character, mirroring Python
`str.lower` on the ASCII range (all strings in this code base are ASCII). -/
def asciiLower (c : Char) : Char :=
  if 'A' ≤ c ∧ c ≤ 'Z' then Char.ofNat (c.toNat + 32) else c

/-- Model of Python `s.lower()` for ASCII strings. -/
def strLower (s : String) : String :=
  String.mk (s.data.map asciiLower)

/-- Check whether the first character list starts the second one. -/
def listStartsWith : List Char → List Char → Bool
  | [], _ => true
  | _ :: _, [] => false
  | a :: as, b :: bs => a == b && listStartsWith as bs

/-- Check whether the first character list occurs contiguously inside the
second one. -/
def listHasSub : List Char → List Char → Bool
  | n, [] => n.isEmpty
  | n, c :: rest => listStartsWith n (c :: rest) || listHasSub n rest

/-- Model of the Python substring test `needle in hay`. -/
def pyIn (needle hay : String) : Bool :=
  listHasSub needle.data hay.data

/-- A job skill is matched when some candidate skill string contains it as a
case-insensitive substring (`req_lower in cand_skill.lower()` in
`calculate_skill_match_score`). -/
def skillMatched (candidate_skills : List String) (job_skill : String) : Bool :=
  candidate_skills.any fun cand_skill => pyIn (strLower job_skill) (strLower cand_skill)

/-- The loop of `calculate_skill_match_score` that appends every required
skill matched by some candidate skill, preserving job-list order. -/
def matched_required (candidate_skills required_skills : List String) : List String :=
  required_skills.filter fun s => skillMatched candidate_skills s

/-- Python `[s for s in required_skills if s not in matched_required]`:
list-membership test against the matched list. -/
def missing_required (candidate_skills required_skills : List String) : List String :=
  required_skills.filter fun s =>
    !((matched_required candidate_skills required_skills).contains s)

/-- The loop of `calculate_skill_match_score` collecting matched preferred
skills, preserving job-list order. -/
def matched_preferred (candidate_skills preferred_skills : List String) : List String :=
  preferred_skills.filter fun s => skillMatched candidate_skills s

/-- Python `len(matched_required) / len(required_skills) if required_skills
else 0`. -/
def required_match_rate (candidate_skills required_skills : List String) : ℚ :=
  if required_skills.isEmpty then 0
  else ((matched_required candidate_skills required_skills).length : ℚ)
    / (required_skills.length : ℚ)

/-- Python `len(matched_preferred) / len(preferred_skills) if
preferred_skills else 0`. -/
def preferred_match_rate (candidate_skills preferred_skills : List String) : ℚ :=
  if preferred_skills.isEmpty then 0
  else ((matched_preferred candidate_skills preferred_skills).length : ℚ)
    / (preferred_skills.length : ℚ)

set_option linter.unusedVariables false in
/-- Embedding of `calculate_skill_match_score`.  The `nice_to_have`
parameter is accepted and never read, exactly as in the source.  (The
source also computes a first version of `matched_required` by a list
comprehension and immediately overwrites it with the loop result; only the
final value is modelled.)  Returns
`(skill_score, matched_required, missing_required, matched_preferred)`. -/
def calculate_skill_match_score (candidate_skills required_skills preferred_skills
    nice_to_have : List String) : ℚ × List String × List String × List String :=
  (required_match_rate candidate_skills required_skills * 70
      + preferred_match_rate candidate_skills preferred_skills * 30,
    matched_required candidate_skills required_skills,
    missing_required candidate_skills required_skills,
    matched_preferred candidate_skills preferred_skills)

/-- Embedding of `calculate_experience_score`.  The single Python
`return min(score, 100), assessment` is applied in each branch. -/
def calculate_experience_score (candidate_years minimum_required : ℕ) : ℚ × String :=
  if candidate_years ≥ minimum_required then
    let bonus : ℕ := min ((candidate_years - minimum_required) * 5) 20
    let score : ℚ := 80 + (bonus : ℚ)
    (min score 100, s!"Meets requirement with {candidate_years} years of experience")
  else
    let shortfall : ℕ := minimum_required - candidate_years
    let score : ℚ := max 0 (80 - (shortfall : ℚ) * 15)
    (min score 100, s!"Below target ({candidate_years} years vs {minimum_required} required)")

/-- The `education_hierarchy` dict of `calculate_education_score` as a
partial lookup. -/
def education_hierarchy (label : String) : Option ℕ :=
  if label = "High School or Certificate" then some 1
  else if label = "Associate Degree" then some 2
  else if label = "Bachelor\x27s Degree" then some 3
  else if label = "Master\x27s Degree" then some 4
  else if label = "PhD" then some 5
  else none

/-- Python `education_hierarchy.get(minimum_education, 3)`. -/
def edu_required_level (minimum_education : String) : ℕ :=
  (education_hierarchy minimum_education).getD 3

/-- Python `max((education_hierarchy.get(edu, 0) for edu in
candidate_education), default=0)`: the fold over `max` starting at the
default `0` agrees with Python because every looked-up level is
non-negative. -/
def edu_candidate_level (candidate_education : List String) : ℕ :=
  (candidate_education.map fun edu => (education_hierarchy edu).getD 0).foldl max 0

/-- Embedding of `calculate_education_score`.  In the first two branches the
assessment string formats `candidate_education[0]`, which raises
`IndexError` when the list is empty; this is modelled by `none`.  The else
branch guards the access (`candidate_education[0] if candidate_education
else ...`).  `required_level - candidate_level` is in range for natural
subtraction in the branch where it is used, since there
`candidate_level < required_level`.  The final Python
`return min(score, 100), assessment` becomes the `Option.map`. -/
def calculate_education_score (candidate_education : List String)
    (minimum_education : String) : Option (ℚ × String) :=
  let required_level := edu_required_level minimum_education
  let candidate_level := edu_candidate_level candidate_education
  let result : Option (ℚ × String) :=
    if candidate_level ≥ required_level then
      match candidate_education with
      | [] => none
      | e :: _ => some (95, s!"Meets or exceeds requirement: {e}")
    else if candidate_level = required_level - 1 then
      match candidate_education with
      | [] => none
      | e :: _ => some (70, s!"One level below requirement: {e}")
    else
      let shown := match candidate_education with
        | [] => "Not specified"
        | e :: _ => e
      some (max 0 (50 - ((required_level - candidate_level : ℕ) : ℚ) * 15),
        s!"Below requirement: {shown}")
  result.map fun p => (min p.1 100, p.2)

/-- Keyword list scanned over the candidate summary in `score_candidate`. -/
def soft_skills_keywords : List String :=
  ["leadership", "communication", "collaboration", "management", "team"]

/-- Keyword list scanned over the stringified past roles in
`score_candidate`. -/
def role_keywords : List String :=
  ["manager", "lead", "director"]

/-- Single-quote character (codepoint 39). -/
def squote : Char := Char.ofNat 39

/-- Double-quote character (codepoint 34). -/
def dquote : Char := Char.ofNat 34

/-- Escaping used by Python `repr` on a string: prefix a backslash before a
backslash or the chosen quote character. -/
def pyEscape (q : Char) (s : String) : String :=
  String.mk (s.data.foldr (fun c acc =>
    if c = '\\' || c = q then '\\' :: c :: acc else c :: acc) [])

/-- Python `repr` of a (printable-ASCII) string: single quotes unless the
string contains a single quote and no double quote. -/
def pyReprStr (s : String) : String :=
  if s.data.contains squote && !(s.data.contains dquote) then
    String.mk ([dquote] ++ (pyEscape dquote s).data ++ [dquote])
  else
    String.mk ([squote] ++ (pyEscape squote s).data ++ [squote])

/-- Python `str(list_of_strings)`: bracketed, comma-space separated reprs. -/
def pyStrListOfStrings (xs : List String) : String :=
  "[" ++ String.intercalate ", " (xs.map pyReprStr) ++ "]"

/-- The soft-skill block of `score_candidate`: base 60, set to 80 when the
lower-cased summary contains a soft-skill keyword, then set to 90 when the
lower-cased `str(past_roles)` contains a role keyword. -/
def soft_skill_score (summary : String) (past_roles : List String) : ℚ :=
  let s0 : ℚ := 60
  let s1 : ℚ :=
    if soft_skills_keywords.any (fun kw => pyIn kw (strLower summary)) then 80 else s0
  let s2 : ℚ :=
    if role_keywords.any (fun kw => pyIn kw (strLower (pyStrListOfStrings past_roles)))
    then 90 else s1
  s2

/-- Structured candidate record (the `CandidateData` TypedDict). -/
structure CandidateData where
  name : String
  email : String
  phone : Option String
  skills : List String
  experience_years : ℕ
  education : List String
  past_roles : List String
  summary : String

/-- Job requirements record (the `JobRequirements` TypedDict). -/
structure JobRequirements where
  title : String
  required_skills : List String
  minimum_experience_years : ℕ
  preferred_skills : List String
  nice_to_have_skills : List String
  minimum_education : String

/-- Weighted scoring criteria (the `ScoringCriteria` TypedDict). -/
structure ScoringCriteria where
  required_skills_weight : ℚ
  preferred_skills_weight : ℚ
  experience_weight : ℚ
  education_weight : ℚ
  soft_skills_weight : ℚ

/-- The dictionary returned by `score_candidate`. -/
structure ScoreResult where
  overall_score : ℚ
  skills_score : ℚ
  experience_score : ℚ
  education_score : ℚ
  matched_required_skills : List String
  missing_required_skills : List String
  matched_preferred_skills : List String
  experience_assessment : String
  education_assessment : String
deriving DecidableEq

/-- Floor of a rational as integer division of numerator by denominator
(`Rat.floor_def`); kept as an explicit definition so that concrete values
evaluate by `decide`. -/
def ratFloor (x : ℚ) : ℤ := x.num / x.den

/-- Round-half-to-even to the nearest integer, the tie-breaking rule of
Python 3 `round`. -/
def pyRoundHalfEven (x : ℚ) : ℤ :=
  if x - ratFloor x < 1/2 then ratFloor x
  else if 1/2 < x - ratFloor x then ratFloor x + 1
  else if ratFloor x % 2 = 0 then ratFloor x else ratFloor x + 1

/-- Model of Python `round(x, 1)` on the exact rational value. -/
def pyRound1 (x : ℚ) : ℚ := (pyRoundHalfEven (x * 10) : ℚ) / 10

/-- Embedding of `score_candidate`.  It is `none` exactly when the
education scorer faults (empty education list reaching an unguarded
`candidate_education[0]`). -/
def score_candidate (candidate_data : CandidateData)
    (job_requirements : JobRequirements) (weights : ScoringCriteria) :
    Option ScoreResult :=
  let skillRes := calculate_skill_match_score candidate_data.skills
    job_requirements.required_skills job_requirements.preferred_skills
    job_requirements.nice_to_have_skills
  let skill_score := skillRes.1
  let expRes := calculate_experience_score candidate_data.experience_years
    job_requirements.minimum_experience_years
  match calculate_education_score candidate_data.education
      job_requirements.minimum_education with
  | none => none
  | some eduRes =>
    let soft := soft_skill_score candidate_data.summary candidate_data.past_roles
    let overall_score : ℚ :=
      skill_score * weights.required_skills_weight
        + skill_score * weights.preferred_skills_weight * 0.5
        + expRes.1 * weights.experience_weight
        + eduRes.1 * weights.education_weight
        + soft * weights.soft_skills_weight
    some
      { overall_score := pyRound1 overall_score
        skills_score := pyRound1 skill_score
        experience_score := pyRound1 expRes.1
        education_score := pyRound1 eduRes.1
        matched_required_skills := skillRes.2.1
        missing_required_skills := skillRes.2.2.1
        matched_preferred_skills := skillRes.2.2.2
        experience_assessment := expRes.2
        education_assessment := eduRes.2 }

/-- Recommendation labels returned by `generate_recommendation`. -/
inductive Recommendation where
  | hire
  | pass
  | review
deriving DecidableEq

/-- Confidence labels returned by `generate_recommendation`. -/
inductive Confidence where
  | high
  | medium
  | low
deriving DecidableEq

/-- Embedding of `generate_recommendation`.  The source reads
`overall_score` and `missing_required_skills` (plus `matched_required_skills`
and `experience_score`, which never influence the branch logic) from the
scoring dict; the branch structure and outputs are modelled exactly.  The
`reasoning` string is not modelled: its text interpolates a Python float,
whose decimal rendering is representation-dependent, and it carries no
scoring information. -/
def generate_recommendation (overall_score : ℚ) (missing_required : List String) :
    Recommendation × Confidence :=
  if overall_score ≥ 80 ∧ missing_required.length = 0 then
    (.hire, if overall_score ≥ 90 then .high else .medium)
  else if overall_score ≥ 70 ∧ missing_required.length ≤ 1 then
    (.review, .medium)
  else if overall_score ≥ 60 then
    (.review, .low)
  else
    (.pass, .high)

/-- The module-level `SAMPLE_JOB_REQUIREMENTS` constant. -/
def SAMPLE_JOB_REQUIREMENTS : JobRequirements where
  title := "Digital Marketing Manager"
  required_skills := ["Digital Marketing Strategy", "Google Analytics",
    "Content Marketing", "Email Marketing"]
  minimum_experience_years := 5
  preferred_skills := ["Marketing Automation", "SEO", "A/B Testing", "Data Analysis"]
  nice_to_have_skills := ["Python", "Figma", "Salesforce", "CRM"]
  minimum_education := "Bachelor\x27s Degree"

/-- The module-level `SCORING_WEIGHTS` constant. -/
def SCORING_WEIGHTS : ScoringCriteria where
  required_skills_weight := 0.35
  preferred_skills_weight := 0.20
  experience_weight := 0.25
  education_weight := 0.10
  soft_skills_weight := 0.10

/-- A concrete extracted-candidate record used to instantiate the general
theorems at a normally-returning input. -/
def demo_candidate : CandidateData where
  name := "John Smith"
  email := "john.smith@email.com"
  phone := none
  skills := ["Google Analytics", "SEO"]
  experience_years := 7
  education := ["Bachelor\x27s Degree"]
  past_roles := ["Marketing Manager"]
  summary := "Team leadership"

/-- The screening result of `demo_candidate` against the sample job and
weights, written out in full. -/
def demo_result : ScoreResult where
  overall_score := 261/5
  skills_score := 25
  experience_score := 90
  education_score := 95
  matched_required_skills := ["Google Analytics"]
  missing_required_skills := ["Digital Marketing Strategy", "Content Marketing",
    "Email Marketing"]
  matched_preferred_skills := ["SEO"]
  experience_assessment := "Meets requirement with 7 years of experience"
  education_assessment := "Meets or exceeds requirement: Bachelor\x27s Degree"

/-- Unfolding equation for `ratFloor`, bridging to the Mathlib floor. -/
theorem ratFloor_eq (x : ℚ) : ratFloor x = ⌊x⌋ := Rat.floor_def.symm

/-- Rounding half-to-even never overshoots an integer upper bound. -/
theorem pyRoundHalfEven_le (x : ℚ) (n : ℤ) (h : x ≤ n) : pyRoundHalfEven x ≤ n := by
  have hf : ⌊x⌋ ≤ n := by
    have h2 := Int.floor_le_floor (α := ℚ) h
    simpa using h2
  unfold pyRoundHalfEven
  rw [ratFloor_eq]
  split_ifs with h1 h2 h3
  · exact hf
  · have hx : (⌊x⌋ : ℚ) + 1/2 < x := by
      have := Int.floor_le x
      linarith
    have hxn : ((⌊x⌋ : ℤ) : ℚ) < (n : ℚ) := by linarith
    have hlt : ⌊x⌋ < n := by exact_mod_cast hxn
    omega
  · exact hf
  · have hr : x - ⌊x⌋ = 1/2 := le_antisymm (not_lt.1 h2) (not_lt.1 h1)
    have hxn : ((⌊x⌋ : ℤ) : ℚ) < (n : ℚ) := by linarith
    have hlt : ⌊x⌋ < n := by exact_mod_cast hxn
    omega

/-- Rounding half-to-even preserves non-negativity. -/
theorem pyRoundHalfEven_nonneg (x : ℚ) (h : 0 ≤ x) : 0 ≤ pyRoundHalfEven x := by
  have hf : (0 : ℤ) ≤ ⌊x⌋ := Int.floor_nonneg.2 h
  unfold pyRoundHalfEven
  rw [ratFloor_eq]
  split_ifs <;> omega

/-- Rounding to one decimal preserves non-negativity. -/
theorem pyRound1_nonneg (x : ℚ) (h : 0 ≤ x) : 0 ≤ pyRound1 x := by
  unfold pyRound1
  have h10 : 0 ≤ x * 10 := by linarith
  have h2 := pyRoundHalfEven_nonneg (x * 10) h10
  have h3 : (0 : ℚ) ≤ (pyRoundHalfEven (x * 10) : ℚ) := by exact_mod_cast h2
  positivity

/-- Rounding to one decimal preserves the bound 100. -/
theorem pyRound1_le_100 (x : ℚ) (h : x ≤ 100) : pyRound1 x ≤ 100 := by
  unfold pyRound1
  have h10 : x * 10 ≤ ((1000 : ℤ) : ℚ) := by push_cast; linarith
  have h2 := pyRoundHalfEven_le (x * 10) 1000 h10
  have h3 : ((pyRoundHalfEven (x * 10) : ℤ) : ℚ) ≤ 1000 := by exact_mod_cast h2
  rw [div_le_iff₀ (by norm_num : (0:ℚ) < 10)]
  linarith

/-- The required-skill match rate is non-negative. -/
theorem required_match_rate_nonneg (cs rs : List String) :
    0 ≤ required_match_rate cs rs := by
  unfold required_match_rate
  split_ifs
  · norm_num
  · positivity

/-- The required-skill match rate is at most one. -/
theorem required_match_rate_le_one (cs rs : List String) :
    required_match_rate cs rs ≤ 1 := by
  unfold required_match_rate
  split_ifs with h
  · norm_num
  · have hne : rs ≠ [] := by
      intro e
      subst e
      simp at h
    have hlen : 0 < (rs.length : ℚ) := by
      have hp : 0 < rs.length := List.length_pos.2 hne
      exact_mod_cast hp
    rw [div_le_one hlen]
    have hle : (matched_required cs rs).length ≤ rs.length :=
      List.length_filter_le _ _
    exact_mod_cast hle

/-- The preferred-skill match rate is non-negative. -/
theorem preferred_match_rate_nonneg (cs ps : List String) :
    0 ≤ preferred_match_rate cs ps := by
  unfold preferred_match_rate
  split_ifs
  · norm_num
  · positivity

/-- The preferred-skill match rate is at most one. -/
theorem preferred_match_rate_le_one (cs ps : List String) :
    preferred_match_rate cs ps ≤ 1 := by
  unfold preferred_match_rate
  split_ifs with h
  · norm_num
  · have hne : ps ≠ [] := by
      intro e
      subst e
      simp at h
    have hlen : 0 < (ps.length : ℚ) := by
      have hp : 0 < ps.length := List.length_pos.2 hne
      exact_mod_cast hp
    rw [div_le_one hlen]
    have hle : (matched_preferred cs ps).length ≤ ps.length :=
      List.length_filter_le _ _
    exact_mod_cast hle

/-- The combined skill score is non-negative. -/
theorem skill_score_nonneg (cs rs ps nth : List String) :
    0 ≤ (calculate_skill_match_score cs rs ps nth).1 := by
  have h1 := required_match_rate_nonneg cs rs
  have h2 := preferred_match_rate_nonneg cs ps
  show 0 ≤ required_match_rate cs rs * 70 + preferred_match_rate cs ps * 30
  linarith

/-- The combined skill score is at most 100. -/
theorem skill_score_le_100 (cs rs ps nth : List String) :
    (calculate_skill_match_score cs rs ps nth).1 ≤ 100 := by
  have h1 := required_match_rate_le_one cs rs
  have h2 := preferred_match_rate_le_one cs ps
  show required_match_rate cs rs * 70 + preferred_match_rate cs ps * 30 ≤ 100
  linarith

/-- First component of the experience score in the meets-requirement branch. -/
theorem experience_score_fst_meets (cy mr : ℕ) (h : mr ≤ cy) :
    (calculate_experience_score cy mr).1
      = min (80 + ((min ((cy - mr) * 5) 20 : ℕ) : ℚ)) 100 := by
  unfold calculate_experience_score
  rw [if_pos h]

/-- First component of the experience score in the below-target branch. -/
theorem experience_score_fst_below (cy mr : ℕ) (h : ¬ mr ≤ cy) :
    (calculate_experience_score cy mr).1
      = min (max 0 (80 - ((mr - cy : ℕ) : ℚ) * 15)) 100 := by
  unfold calculate_experience_score
  rw [if_neg h]

/-- The experience score is non-negative. -/
theorem experience_score_nonneg (cy mr : ℕ) :
    0 ≤ (calculate_experience_score cy mr).1 := by
  by_cases h : mr ≤ cy
  · rw [experience_score_fst_meets cy mr h]
    exact le_min (by positivity) (by norm_num)
  · rw [experience_score_fst_below cy mr h]
    exact le_min (le_max_left _ _) (by norm_num)

/-- The experience score is at most 100. -/
theorem experience_score_le_100 (cy mr : ℕ) :
    (calculate_experience_score cy mr).1 ≤ 100 := by
  by_cases h : mr ≤ cy
  · rw [experience_score_fst_meets cy mr h]
    exact min_le_right _ _
  · rw [experience_score_fst_below cy mr h]
    exact min_le_right _ _

/-- The experience score is monotone in the candidate years. -/
theorem experience_score_mono (mr : ℕ) {cy1 cy2 : ℕ} (h : cy1 ≤ cy2) :
    (calculate_experience_score cy1 mr).1 ≤ (calculate_experience_score cy2 mr).1 := by
  by_cases h1 : mr ≤ cy1
  · have h2 : mr ≤ cy2 := le_trans h1 h
    rw [experience_score_fst_meets _ _ h1, experience_score_fst_meets _ _ h2]
    apply min_le_min _ le_rfl
    apply add_le_add_left
    have hb : min ((cy1 - mr) * 5) 20 ≤ min ((cy2 - mr) * 5) 20 :=
      min_le_min (Nat.mul_le_mul_right 5 (Nat.sub_le_sub_right h mr)) le_rfl
    exact_mod_cast hb
  · by_cases h2 : mr ≤ cy2
    · rw [experience_score_fst_below _ _ h1, experience_score_fst_meets _ _ h2]
      have hL : min (max 0 (80 - ((mr - cy1 : ℕ) : ℚ) * 15)) 100 ≤ 80 := by
        apply min_le_of_left_le
        apply max_le (by norm_num)
        have hc : (0:ℚ) ≤ ((mr - cy1 : ℕ) : ℚ) * 15 := by positivity
        linarith
      have hR : (80:ℚ) ≤ min (80 + ((min ((cy2 - mr) * 5) 20 : ℕ) : ℚ)) 100 := by
        apply le_min _ (by norm_num)
        have hc : (0:ℚ) ≤ ((min ((cy2 - mr) * 5) 20 : ℕ) : ℚ) := by positivity
        linarith
      linarith
    · have h' : mr - cy2 ≤ mr - cy1 := Nat.sub_le_sub_left h mr
      rw [experience_score_fst_below _ _ h1, experience_score_fst_below _ _ h2]
      apply min_le_min _ le_rfl
      apply max_le_max le_rfl
      apply sub_le_sub_left
      have hc : ((mr - cy2 : ℕ) : ℚ) ≤ ((mr - cy1 : ℕ) : ℚ) := by exact_mod_cast h'
      exact mul_le_mul_of_nonneg_right hc (by norm_num)

/-- Any score produced by the education scorer lies in [0, 100]. -/
theorem education_score_range (ce : List String) (me : String) (p : ℚ × String)
    (h : calculate_education_score ce me = some p) : 0 ≤ p.1 ∧ p.1 ≤ 100 := by
  simp only [calculate_education_score] at h
  obtain ⟨q, hq, hf⟩ := Option.map_eq_some'.1 h
  have hq1 : 0 ≤ q.1 := by
    split_ifs at hq with h1 h2
    · cases ce with
      | nil => exact absurd hq (by simp)
      | cons e t =>
        have he : (95 : ℚ) = q.1 := congrArg Prod.fst (Option.some.inj hq)
        rw [← he]
        norm_num
    · cases ce with
      | nil => exact absurd hq (by simp)
      | cons e t =>
        have he : (70 : ℚ) = q.1 := congrArg Prod.fst (Option.some.inj hq)
        rw [← he]
        norm_num
    · have he := congrArg Prod.fst (Option.some.inj hq)
      rw [← he]
      exact le_max_left _ _
  subst hf
  exact ⟨le_min hq1 (by norm_num), min_le_right _ _⟩

/-- The soft-skill estimate is one of 60, 80 or 90. -/
theorem soft_skill_score_cases (su : String) (pr : List String) :
    soft_skill_score su pr = 60 ∨ soft_skill_score su pr = 80
      ∨ soft_skill_score su pr = 90 := by
  simp only [soft_skill_score]
  split_ifs <;> simp

/-- The soft-skill estimate lies in [0, 100]. -/
theorem soft_skill_score_range (su : String) (pr : List String) :
    0 ≤ soft_skill_score su pr ∧ soft_skill_score su pr ≤ 100 := by
  rcases soft_skill_score_cases su pr with h | h | h <;> rw [h] <;> norm_num

/-- Unfolding of the overall score of a returned screening result against
the component scorers. -/
theorem score_candidate_overall (c : CandidateData) (j : JobRequirements)
    (w : ScoringCriteria) (es : ℚ) (ea : String)
    (hedu : calculate_education_score c.education j.minimum_education = some (es, ea))
    (r : ScoreResult) (hr : score_candidate c j w = some r) :
    r.overall_score = pyRound1 (
      (calculate_skill_match_score c.skills j.required_skills j.preferred_skills
          j.nice_to_have_skills).1 * w.required_skills_weight
        + (calculate_skill_match_score c.skills j.required_skills j.preferred_skills
          j.nice_to_have_skills).1 * w.preferred_skills_weight * 0.5
        + (calculate_experience_score c.experience_years
          j.minimum_experience_years).1 * w.experience_weight
        + es * w.education_weight
        + soft_skill_score c.summary c.past_roles * w.soft_skills_weight) := by
  unfold score_candidate at hr
  rw [hedu] at hr
  have hr2 := Option.some.inj hr
  rw [← hr2]

/-- The list of missing required skills is the job-order list of required
skills matched by no candidate skill. -/
theorem missing_required_eq (cs rs : List String) :
    missing_required cs rs = rs.filter fun s => !(skillMatched cs s) := by
  unfold missing_required
  apply List.filter_congr
  intro s hs
  have hc : (matched_required cs rs).contains s = skillMatched cs s := by
    unfold matched_required
    by_cases h : skillMatched cs s = true
    · simp [List.contains, List.elem_eq_mem, List.mem_filter, hs, h]
    · simp at h
      simp [List.contains, List.elem_eq_mem, List.mem_filter, h]
  rw [hc]

/-- Claim C1: `generate_recommendation` evaluates four tiers in order with
first match winning — score at least 80 with no missing required skills
gives hire (high confidence at 90 and above, else medium); otherwise score
at least 70 with at most one missing required skill gives review/medium;
otherwise score at least 60 gives review/low; otherwise pass/high.  Every
pair maps to exactly one of hire, review, pass; score 85 with no missing
required skills yields hire with medium confidence. -/
theorem claim_C1 (s : ℚ) (m : List String) :
    (s ≥ 80 ∧ m.length = 0 →
      generate_recommendation s m = (.hire, if s ≥ 90 then .high else .medium))
    ∧ (¬(s ≥ 80 ∧ m.length = 0) → s ≥ 70 ∧ m.length ≤ 1 →
      generate_recommendation s m = (.review, .medium))
    ∧ (¬(s ≥ 80 ∧ m.length = 0) → ¬(s ≥ 70 ∧ m.length ≤ 1) → s ≥ 60 →
      generate_recommendation s m = (.review, .low))
    ∧ (¬(s ≥ 80 ∧ m.length = 0) → ¬(s ≥ 70 ∧ m.length ≤ 1) → ¬(s ≥ 60) →
      generate_recommendation s m = (.pass, .high))
    ∧ ((generate_recommendation s m).1 = .hire ∨ (generate_recommendation s m).1 = .review
        ∨ (generate_recommendation s m).1 = .pass)
    ∧ generate_recommendation 85 [] = (.hire, .medium) := by
  refine ⟨?_, ?_, ?_, ?_, ?_, by decide⟩
  · intro h1
    unfold generate_recommendation
    rw [if_pos h1]
  · intro h1 h2
    unfold generate_recommendation
    rw [if_neg h1, if_pos h2]
  · intro h1 h2 h3
    unfold generate_recommendation
    rw [if_neg h1, if_neg h2, if_pos h3]
  · intro h1 h2 h3
    unfold generate_recommendation
    rw [if_neg h1, if_neg h2, if_neg h3]
  · unfold generate_recommendation
    split_ifs <;> simp

/-- Witness for C1: the first tier applied at score 85 with no missing
skills, and the last tier at score 55 (Scenario D). -/
theorem claim_C1_witness :
    generate_recommendation 85 [] = (.hire, .medium)
    ∧ generate_recommendation 55 ["Google Analytics", "SEO"] = (.pass, .high) := by
  constructor
  · have h := (claim_C1 85 []).1 ⟨by norm_num, rfl⟩
    rw [h, if_neg (by norm_num : ¬ (85:ℚ) ≥ 90)]
  · exact (claim_C1 55 ["Google Analytics", "SEO"]).2.2.2.1
      (by decide) (by decide) (by decide)

/-- Claim C2 failing input: the core is not total.  The education scorer
reaches the unguarded `candidate_education[0]` (an `IndexError`, modelled
as `none`) on an empty education list with minimum education "High School
or Certificate", and `score_candidate` faults with it. -/
theorem claim_C2 :
    calculate_education_score [] "High School or Certificate" = none
    ∧ score_candidate { demo_candidate with education := [] }
        { SAMPLE_JOB_REQUIREMENTS with minimum_education := "High School or Certificate" }
        SCORING_WEIGHTS = none := by
  constructor
  · decide
  · decide

/-- Claim C3: the overall score of every returned screening result is the
weighted sum `skill*w_required + skill*w_preferred*0.5 + exp*w_experience
+ edu*w_education + soft*w_soft` rounded to one decimal place. -/
theorem claim_C3 (c : CandidateData) (j : JobRequirements)
    (w : ScoringCriteria) (es : ℚ) (ea : String)
    (hedu : calculate_education_score c.education j.minimum_education = some (es, ea))
    (r : ScoreResult) (hr : score_candidate c j w = some r) :
    r.overall_score = pyRound1 (
      (calculate_skill_match_score c.skills j.required_skills j.preferred_skills
          j.nice_to_have_skills).1 * w.required_skills_weight
        + (calculate_skill_match_score c.skills j.required_skills j.preferred_skills
          j.nice_to_have_skills).1 * w.preferred_skills_weight * 0.5
        + (calculate_experience_score c.experience_years
          j.minimum_experience_years).1 * w.experience_weight
        + es * w.education_weight
        + soft_skill_score c.summary c.past_roles * w.soft_skills_weight) :=
  score_candidate_overall c j w es ea hedu r hr

/-- Witness for C3: the formula instantiated on the demo candidate against
the sample job profile and weights. -/
theorem claim_C3_witness :
    demo_result.overall_score = pyRound1 (
      (calculate_skill_match_score demo_candidate.skills
          SAMPLE_JOB_REQUIREMENTS.required_skills SAMPLE_JOB_REQUIREMENTS.preferred_skills
          SAMPLE_JOB_REQUIREMENTS.nice_to_have_skills).1
          * SCORING_WEIGHTS.required_skills_weight
        + (calculate_skill_match_score demo_candidate.skills
          SAMPLE_JOB_REQUIREMENTS.required_skills SAMPLE_JOB_REQUIREMENTS.preferred_skills
          SAMPLE_JOB_REQUIREMENTS.nice_to_have_skills).1
          * SCORING_WEIGHTS.preferred_skills_weight * 0.5
        + (calculate_experience_score demo_candidate.experience_years
          SAMPLE_JOB_REQUIREMENTS.minimum_experience_years).1
          * SCORING_WEIGHTS.experience_weight
        + 95 * SCORING_WEIGHTS.education_weight
        + soft_skill_score demo_candidate.summary demo_candidate.past_roles
          * SCORING_WEIGHTS.soft_skills_weight) :=
  claim_C3 demo_candidate SAMPLE_JOB_REQUIREMENTS SCORING_WEIGHTS 95
    "Meets or exceeds requirement: Bachelor\x27s Degree" (by decide)
    demo_result (by decide)

/-- Claim C4: with five non-negative weights summing to one, the overall
score of every returned screening result lies in [0, 100]. -/
theorem claim_C4 (c : CandidateData) (j : JobRequirements) (w : ScoringCriteria)
    (h1 : 0 ≤ w.required_skills_weight) (h2 : 0 ≤ w.preferred_skills_weight)
    (h3 : 0 ≤ w.experience_weight) (h4 : 0 ≤ w.education_weight)
    (h5 : 0 ≤ w.soft_skills_weight)
    (hsum : w.required_skills_weight + w.preferred_skills_weight + w.experience_weight
      + w.education_weight + w.soft_skills_weight = 1)
    (r : ScoreResult) (hr : score_candidate c j w = some r) :
    0 ≤ r.overall_score ∧ r.overall_score ≤ 100 := by
  cases hedu : calculate_education_score c.education j.minimum_education with
  | none =>
    exfalso
    unfold score_candidate at hr
    rw [hedu] at hr
    exact Option.noConfusion hr
  | some p =>
    have hedu2 : calculate_education_score c.education j.minimum_education
        = some (p.1, p.2) := by rw [hedu]
    have hov := score_candidate_overall c j w p.1 p.2 hedu2 r hr
    have hsk0 := skill_score_nonneg c.skills j.required_skills j.preferred_skills
      j.nice_to_have_skills
    have hsk1 := skill_score_le_100 c.skills j.required_skills j.preferred_skills
      j.nice_to_have_skills
    have hex0 := experience_score_nonneg c.experience_years j.minimum_experience_years
    have hex1 := experience_score_le_100 c.experience_years j.minimum_experience_years
    have hed := education_score_range c.education j.minimum_education p hedu
    have hso := soft_skill_score_range c.summary c.past_roles
    rw [hov]
    constructor
    · apply pyRound1_nonneg
      have t1 := mul_nonneg hsk0 h1
      have t2 : (0:ℚ) ≤ (calculate_skill_match_score c.skills j.required_skills
          j.preferred_skills j.nice_to_have_skills).1
          * w.preferred_skills_weight * 0.5 :=
        mul_nonneg (mul_nonneg hsk0 h2) (by norm_num)
      have t3 := mul_nonneg hex0 h3
      have t4 := mul_nonneg hed.1 h4
      have t5 := mul_nonneg hso.1 h5
      linarith
    · apply pyRound1_le_100
      have b1 := mul_le_mul_of_nonneg_right hsk1 h1
      have b2 : (calculate_skill_match_score c.skills j.required_skills
          j.preferred_skills j.nice_to_have_skills).1
          * w.preferred_skills_weight * 0.5
          ≤ 100 * w.preferred_skills_weight * 0.5 :=
        mul_le_mul_of_nonneg_right (mul_le_mul_of_nonneg_right hsk1 h2) (by norm_num)
      have b3 := mul_le_mul_of_nonneg_right hex1 h3
      have b4 := mul_le_mul_of_nonneg_right hed.2 h4
      have b5 := mul_le_mul_of_nonneg_right hso.2 h5
      linarith

/-- Witness for C4: the demo screening run under the sample weights, which
are non-negative and sum to one. -/
theorem claim_C4_witness :
    0 ≤ demo_result.overall_score ∧ demo_result.overall_score ≤ 100 :=
  claim_C4 demo_candidate SAMPLE_JOB_REQUIREMENTS SCORING_WEIGHTS
    (by decide) (by decide) (by decide) (by decide) (by decide) (by decide)
    demo_result (by decide)

/-- Claim C5 counterexample: an empty education list against minimum
"Bachelor\x27s Degree" scores `max(0, 50 - 3*15) = 5`, not 0 as the claim
computes. -/
theorem claim_C5_counterexample :
    (calculate_education_score [] "Bachelor\x27s Degree").map Prod.fst = some 5
    ∧ (calculate_education_score [] "Bachelor\x27s Degree").map Prod.fst ≠ some 0 := by
  constructor
  · decide
  · decide

/-- Claim C5 (amended): an empty education list against minimum
"Bachelor\x27s Degree" yields candidate level 0 and required level 3, and
the returned education score is `max(0, 50 - (3-0)*15) = 5`. -/
theorem claim_C5 :
    edu_candidate_level [] = 0
    ∧ edu_required_level "Bachelor\x27s Degree" = 3
    ∧ calculate_education_score [] "Bachelor\x27s Degree"
        = some (max 0 (50 - ((3 - 0 : ℕ) : ℚ) * 15), "Below requirement: Not specified")
    ∧ calculate_education_score [] "Bachelor\x27s Degree"
        = some (5, "Below requirement: Not specified") := by
  refine ⟨rfl, rfl, ?_, ?_⟩
  · decide
  · decide

/-- Claim C6: a job skill is matched exactly when some candidate skill
contains it as a case-insensitive substring (job-skill-in-candidate-skill
direction); the matched and missing required lists are exactly the matched
and unmatched required skills in job-list order; candidate skill
"Google Analytics" matches required skill "google analytics", while a
candidate skill that is a strict substring of the job skill does not match. -/
theorem claim_C6 (cs rs : List String) :
    matched_required cs rs = rs.filter (fun s => skillMatched cs s)
    ∧ missing_required cs rs = rs.filter (fun s => !(skillMatched cs s))
    ∧ (∀ job_skill : String, skillMatched cs job_skill
        = cs.any fun cand_skill => pyIn (strLower job_skill) (strLower cand_skill))
    ∧ matched_required ["Google Analytics"] ["google analytics"] = ["google analytics"]
    ∧ missing_required ["Google Analytics"] ["google analytics"] = []
    ∧ skillMatched ["Google Analytics Certification"] "Google Analytics" = true
    ∧ skillMatched ["Analytics"] "Google Analytics" = false :=
  ⟨rfl, missing_required_eq cs rs, fun _ => rfl, by decide, by decide, by decide, by decide⟩

/-- Claim C7: the skill score is `requiredMatchRate * 70 +
preferredMatchRate * 30`, each rate being matched count over job-list
length and 0 for an empty job list (no division by zero), the score lies
in [0, 100], and Scenario B has zero matched required skills and a zero
required-side contribution. -/
theorem claim_C7 (cs rs ps nth : List String) :
    (calculate_skill_match_score cs rs ps nth).1
        = required_match_rate cs rs * 70 + preferred_match_rate cs ps * 30
    ∧ (rs = [] → required_match_rate cs rs = 0)
    ∧ (ps = [] → preferred_match_rate cs ps = 0)
    ∧ (rs ≠ [] → required_match_rate cs rs
        = ((matched_required cs rs).length : ℚ) / (rs.length : ℚ))
    ∧ (ps ≠ [] → preferred_match_rate cs ps
        = ((matched_preferred cs ps).length : ℚ) / (ps.length : ℚ))
    ∧ 0 ≤ (calculate_skill_match_score cs rs ps nth).1
    ∧ (calculate_skill_match_score cs rs ps nth).1 ≤ 100
    ∧ matched_required ["Social media", "Writing"]
        ["Digital Marketing Strategy", "Google Analytics", "Content Marketing",
          "Email Marketing"] = []
    ∧ required_match_rate ["Social media", "Writing"]
        ["Digital Marketing Strategy", "Google Analytics", "Content Marketing",
          "Email Marketing"] * 70 = 0 := by
  refine ⟨rfl, ?_, ?_, ?_, ?_, skill_score_nonneg cs rs ps nth,
    skill_score_le_100 cs rs ps nth, by decide, by decide⟩
  · intro h
    subst h
    rfl
  · intro h
    subst h
    rfl
  · intro h
    unfold required_match_rate
    rw [if_neg (by simpa using h)]
  · intro h
    unfold preferred_match_rate
    rw [if_neg (by simpa using h)]

/-- Witness for C7: the empty-list rate clauses and both non-empty rate
clauses instantiated at concrete skill lists. -/
theorem claim_C7_witness :
    required_match_rate ["Google Analytics"] [] = 0
    ∧ preferred_match_rate ["Google Analytics"] [] = 0
    ∧ required_match_rate ["Google Analytics"] ["Google Analytics"]
        = ((matched_required ["Google Analytics"] ["Google Analytics"]).length : ℚ)
          / ((["Google Analytics"] : List String).length : ℚ)
    ∧ preferred_match_rate ["Google Analytics"] ["SEO"]
        = ((matched_preferred ["Google Analytics"] ["SEO"]).length : ℚ)
          / ((["SEO"] : List String).length : ℚ) := by
  refine ⟨?_, ?_, ?_, ?_⟩
  · exact (claim_C7 ["Google Analytics"] [] [] []).2.1 rfl
  · exact (claim_C7 ["Google Analytics"] [] [] []).2.2.1 rfl
  · exact (claim_C7 ["Google Analytics"] ["Google Analytics"] [] []).2.2.2.1 (by simp)
  · exact (claim_C7 ["Google Analytics"] [] ["SEO"] []).2.2.2.2.1 (by simp)

/-- Claim C8: meeting the minimum years gives `80 + min((cy - my)*5, 20)`
capped at 100 with a meets-requirement assessment naming the candidate
years; falling short gives `max(0, 80 - (my - cy)*15)` with a below-target
assessment naming both numbers; seven years against a minimum of five
scores 90. -/
theorem claim_C8 (cy mr : ℕ) :
    (mr ≤ cy → calculate_experience_score cy mr
        = (min (80 + ((min ((cy - mr) * 5) 20 : ℕ) : ℚ)) 100,
            s!"Meets requirement with {cy} years of experience"))
    ∧ (cy < mr → calculate_experience_score cy mr
        = (max 0 (80 - ((mr - cy : ℕ) : ℚ) * 15),
            s!"Below target ({cy} years vs {mr} required)"))
    ∧ calculate_experience_score 7 5
        = (90, "Meets requirement with 7 years of experience") := by
  refine ⟨?_, ?_, by decide⟩
  · intro h
    unfold calculate_experience_score
    rw [if_pos h]
  · intro h
    unfold calculate_experience_score
    rw [if_neg (by omega : ¬ (cy ≥ mr))]
    have hle : max 0 (80 - ((mr - cy : ℕ) : ℚ) * 15) ≤ 100 := by
      apply max_le (by norm_num)
      have hc : (0:ℚ) ≤ ((mr - cy : ℕ) : ℚ) * 15 := by positivity
      linarith
    simp only [min_eq_left hle]

/-- Witness for C8: both branches at concrete inputs — (7, 5) scores 90 and
(2, 5) scores 35. -/
theorem claim_C8_witness :
    calculate_experience_score 7 5 = (90, "Meets requirement with 7 years of experience")
    ∧ calculate_experience_score 2 5 = (35, "Below target (2 years vs 5 required)") := by
  constructor
  · have h := (claim_C8 7 5).1 (by norm_num)
    rw [h]
    decide
  · have h := (claim_C8 2 5).2.1 (by norm_num)
    rw [h]
    decide

/-- Claim C9: for every fixed minimum, the experience score is monotone
non-decreasing in the candidate years, and it always lies in [0, 100]. -/
theorem claim_C9 (mr cy1 cy2 : ℕ) (h : cy1 ≤ cy2) :
    (calculate_experience_score cy1 mr).1 ≤ (calculate_experience_score cy2 mr).1
    ∧ ∀ cy : ℕ, 0 ≤ (calculate_experience_score cy mr).1
        ∧ (calculate_experience_score cy mr).1 ≤ 100 :=
  ⟨experience_score_mono mr h,
    fun cy => ⟨experience_score_nonneg cy mr, experience_score_le_100 cy mr⟩⟩

/-- Witness for C9: monotonicity between 3 and 7 years against a minimum
of 5, and the bounds at 7 years. -/
theorem claim_C9_witness :
    (calculate_experience_score 3 5).1 ≤ (calculate_experience_score 7 5).1
    ∧ 0 ≤ (calculate_experience_score 7 5).1
    ∧ (calculate_experience_score 7 5).1 ≤ 100 := by
  have h := claim_C9 5 3 7 (by norm_num)
  exact ⟨h.1, (h.2 7).1, (h.2 7).2⟩

/-- Claim C10: the nice-to-have skill list is dead — replacing it changes
no output of `score_candidate`, and `calculate_skill_match_score` is
invariant in its `nice_to_have` argument. -/
theorem claim_C10 (c : CandidateData) (j : JobRequirements) (w : ScoringCriteria)
    (nts : List String) :
    score_candidate c { j with nice_to_have_skills := nts } w = score_candidate c j w
    ∧ ∀ cs rs ps n1 n2 : List String,
        calculate_skill_match_score cs rs ps n1 = calculate_skill_match_score cs rs ps n2 := by
  refine ⟨?_, fun _ _ _ _ _ => rfl⟩
  cases j
  rfl

end Screener
